import Mathlib

/-!
Verification of the Gantry real-time telemetry/incident client core.

The definitions below are a shallow embedding of the JavaScript source:
  * `frontend/src/hooks/useWebSocket.js` — hook state, the `onmessage`
    dispatch, the reconnect backoff, and the effect cleanup;
  * `frontend/src/App.jsx` — the derived `status` value and the
    overlay-dismissal reset;
  * `frontend/src/components/CriticalOverlay.jsx` — `handleAccept`;
  * `frontend/src/components/ReasoningLog.jsx` — the logs-length effect.
-/

/-- Parsed JSON frame as read by the `onmessage` handler.  Only the fields
the client ever dereferences are modelled; `none` stands for a missing or
null JSON field.  Step identifiers are modelled as natural numbers. -/
structure MsgData where
  type : Option String
  step : Option Nat
  agent : Option String
  event : Option String
  isError : Bool
  severity : Option String
  unit_id : Option String
  cycle : Option Nat
  rul : Option Int
  vibration : Option Int
  unit_status : Option String
deriving DecidableEq

/-- State held by the `useWebSocket` hook (its six `useState` cells plus the
`tries` ref that drives the backoff). -/
structure HookState where
  lastMessage : Option MsgData
  lastAlert : Option MsgData
  connected : Bool
  criticalEvent : Option MsgData
  streamingLogs : List MsgData
  agentSolution : Option MsgData
  tries : Nat
deriving DecidableEq

/-- Initial hook state: every `useState` starts at `null`/`false`/`[]` and
the retry ref at `0`. -/
def initState : HookState :=
  { lastMessage := none, lastAlert := none, connected := false,
    criticalEvent := none, streamingLogs := [], agentSolution := none,
    tries := 0 }

/-- The `mcp_step` reducer (useWebSocket.js lines 47-50):
`prev.some((s) => s.step === data.step) ? prev : [...prev, data]`. -/
def applyStep (prev : List MsgData) (d : MsgData) : List MsgData :=
  if prev.any (fun x => x.step == d.step) then prev else prev ++ [d]

/-- The `onmessage` dispatch (useWebSocket.js lines 41-85) on an
already-parsed frame.  Branch order and effects follow the source:
`mcp_step`, `solution`, `alert` (with the critical/error sub-condition),
`system_resumed`, and the default branch that stores the frame as the
live telemetry tick. -/
def onMessage (s : HookState) (d : MsgData) : HookState :=
  if d.type = some "mcp_step" then
    { s with streamingLogs := applyStep s.streamingLogs d }
  else if d.type = some "solution" then
    { s with agentSolution := some d }
  else if d.type = some "alert" then
    if d.isError = true ∨ d.severity = some "critical" then
      { s with lastAlert := some d, criticalEvent := some d }
    else
      { s with lastAlert := some d }
  else if d.type = some "system_resumed" then
    { s with lastMessage := none, criticalEvent := none,
             streamingLogs := [], agentSolution := none }
  else
    { s with lastMessage := some d }

/-- An inbound frame: either text that parses to JSON (`json`) or text on
which `JSON.parse` throws (`malformed`). -/
inductive Frame where
  | json (d : MsgData)
  | malformed (raw : String)

/-- The whole `onmessage` handler: the `try` body dispatches the parsed
frame; the `catch` around a parse failure does nothing. -/
def onFrame (s : HookState) : Frame → HookState
  | .json d => onMessage s d
  | .malformed _ => s

/-- Processing a sequence of already-parsed frames in arrival order. -/
def runFrames (s : HookState) (frames : List MsgData) : HookState :=
  frames.foldl onMessage s

/-- Step identifiers currently held in the timeline, in display order. -/
def timelineIds (s : HookState) : List (Option Nat) :=
  s.streamingLogs.map (fun m => m.step)

/-- A frame hits one of the four typed branches of the dispatch; every
other frame falls through to the default telemetry branch. -/
def isSpecialType (d : MsgData) : Prop :=
  d.type = some "mcp_step" ∨ d.type = some "solution" ∨
  d.type = some "alert" ∨ d.type = some "system_resumed"

instance (d : MsgData) : Decidable (isSpecialType d) := by
  unfold isSpecialType; infer_instance

/-- The `resetStreamingLogs` callback (useWebSocket.js line 25). -/
def resetStreamingLogs (s : HookState) : HookState :=
  { s with streamingLogs := [] }

/-- `onopen` (useWebSocket.js lines 36-39): mark connected, reset retries. -/
def onOpenFn (s : HookState) : HookState :=
  { s with connected := true, tries := 0 }

/-- Delay computed by `onclose` before the increment (line 89):
`Math.min(2000 * 2 ** tries.current, 30000)`. -/
def onCloseDelay (s : HookState) : Nat :=
  min (2000 * 2 ^ s.tries) 30000

/-- State transition of `onclose` (lines 87-92): mark disconnected and
increment the retry counter after the delay has been computed. -/
def onCloseFn (s : HookState) : HookState :=
  { s with connected := false, tries := s.tries + 1 }

/-- Delays scheduled by `n` consecutive `onclose` events from state `s`. -/
def delaySeq (s : HookState) : Nat → List Nat
  | 0 => []
  | n + 1 => onCloseDelay s :: delaySeq (onCloseFn s) n

/-- State after `n` consecutive `onclose` events. -/
def iterClose (s : HookState) : Nat → HookState
  | 0 => s
  | n + 1 => iterClose (onCloseFn s) n

/-- Orchestration snapshot held by `App` in its `data` state; only the
`status` field takes part in the status derivation. -/
structure OrchSnapshot where
  status : Option String
deriving DecidableEq

/-- Derived status (App.jsx line 68):
`liveTel?.unit_status ?? data?.status ?? "IDLE"`. -/
def derivedStatus (liveTel : Option MsgData) (orch : Option OrchSnapshot) : String :=
  match liveTel.bind (fun t => t.unit_status) with
  | some st => st
  | none =>
    match orch.bind (fun d => d.status) with
    | some st => st
    | none => "IDLE"

/-- Telemetry shown by the critical overlay (App.jsx line 75):
`criticalEvent ?? liveTel`. -/
def overlayTelemetry (s : HookState) : Option MsgData :=
  match s.criticalEvent with
  | some c => some c
  | none => s.lastMessage

/-- App-level state relevant to overlay dismissal: the orchestration
snapshot plus the hook state. -/
structure AppState where
  data : Option OrchSnapshot
  hook : HookState
deriving DecidableEq

/-- `handleDismissOverlay` (App.jsx lines 58-64): `setData(null)`,
`dismissCritical()`, `clearSolution()`, `resetStreamingLogs()`. -/
def handleDismissOverlay (a : AppState) : AppState :=
  { data := none,
    hook := { a.hook with criticalEvent := none, agentSolution := none,
                          streamingLogs := [] } }

/-- Outcome of the `fetch("/api/system-resume", {method: "POST"})` call. -/
inductive FetchOutcome where
  | success
  | httpError (status : Nat)
  | networkError (msg : String)
deriving DecidableEq

/-- The promise either resolves with an HTTP status or rejects. -/
def fetchResult : FetchOutcome → Except String Nat
  | .success => .ok 200
  | .httpError st => .ok st
  | .networkError m => .error m

/-- `res.ok`: status in the 2xx range. -/
def resOk (st : Nat) : Bool :=
  decide (200 ≤ st ∧ st < 300)

/-- The resume notification reached the backend with a 2xx response. -/
def resumeSucceeded (o : FetchOutcome) : Prop :=
  ∃ st, fetchResult o = Except.ok st ∧ resOk st = true

instance (o : FetchOutcome) : Decidable (resumeSucceeded o) := by
  unfold resumeSucceeded
  cases o with
  | success => exact isTrue ⟨200, rfl, rfl⟩
  | httpError st =>
    by_cases h : resOk st = true
    · exact isTrue ⟨st, rfl, h⟩
    · exact isFalse (fun ⟨st', hst, hok⟩ => by
        cases hst; exact h hok)
  | networkError m =>
    exact isFalse (fun ⟨st, hst, _⟩ => by cases hst)

/-- `handleAccept` (CriticalOverlay.jsx lines 37-45): the `try`/`catch`
around the resume POST only produces console logs; `onDismiss()` always
runs afterwards.  Returns the dismissed app state plus the console-error
messages emitted. -/
def handleAccept (o : FetchOutcome) (a : AppState) : AppState × List String :=
  let logs : List String :=
    match fetchResult o with
    | .ok st =>
      if resOk st then []
      else ["handleAccept system-resume failed"]
    | .error _ => ["handleAccept system-resume error"]
  (handleDismissOverlay a, logs)

/-- Animation state of `ReasoningLog`: the set of steps whose typewriter
animation has finished, plus the previously observed logs length. -/
structure LogViewState where
  finishedSteps : List (Option Nat)
  prevLogsLen : Nat
deriving DecidableEq

/-- The `ReasoningLog` effect on `logs.length` (ReasoningLog.jsx lines
123-128): when the list shrank, reset `finishedSteps`; always record the
new length. -/
def logsLengthEffect (v : LogViewState) (len : Nat) : LogViewState :=
  { finishedSteps := if len < v.prevLogsLen then [] else v.finishedSteps,
    prevLogsLen := len }

/-- Event-loop model of session teardown.  `timerPending`: a reconnect
timer is scheduled; `socketLive`: the socket has not been closed;
`closeEventQueued`: `close()` ran but the asynchronous close event has not
been delivered yet; `tornDown`: the effect cleanup has run;
`attemptsAfterTeardown`: number of `connect()` calls made after cleanup. -/
structure TeardownModel where
  timerPending : Bool
  socketLive : Bool
  closeEventQueued : Bool
  tornDown : Bool
  attemptsAfterTeardown : Nat
deriving DecidableEq

/-- Observable event-loop steps around teardown. -/
inductive LoopEvent where
  | cleanup
  | closeDelivered
  | timerFired

/-- Small-step semantics.  `cleanup` is the effect cleanup (useWebSocket.js
lines 101-104): `clearTimeout(timer.current)` cancels any pending timer and
`wsRef.current?.close()` initiates the close, whose close event is
delivered asynchronously later.  `closeDelivered` runs the still-attached
`onclose` handler (lines 87-92), which schedules a reconnect timer.
`timerFired` runs a due timer: `connect()` opens a new socket. -/
def loopStep (m : TeardownModel) : LoopEvent → TeardownModel
  | .cleanup =>
    { m with timerPending := false,
             socketLive := false,
             closeEventQueued := m.closeEventQueued || m.socketLive,
             tornDown := true }
  | .closeDelivered =>
    if m.closeEventQueued then
      { m with closeEventQueued := false, timerPending := true }
    else m
  | .timerFired =>
    if m.timerPending then
      { m with timerPending := false,
               socketLive := true,
               attemptsAfterTeardown :=
                 m.attemptsAfterTeardown + (if m.tornDown then 1 else 0) }
    else m

/-- Run the event-loop model over a list of events. -/
def runLoop (m : TeardownModel) (evs : List LoopEvent) : TeardownModel :=
  evs.foldl loopStep m

/-- Modelled from the spec: "the resulting timeline contains each
identifier exactly once, in first-arrival order".  Keeps the first
occurrence of each identifier not already in `seen`. -/
def firstOccurrences (seen : List (Option Nat)) : List (Option Nat) → List (Option Nat)
  | [] => []
  | x :: xs =>
    if x ∈ seen then firstOccurrences seen xs
    else x :: firstOccurrences (x :: seen) xs

/-! ### Helper lemmas -/

theorem applyStep_mem (prev : List MsgData) (d : MsgData)
    (h : d.step ∈ prev.map (fun m => m.step)) :
    applyStep prev d = prev := by
  unfold applyStep
  rw [if_pos]
  rw [List.any_eq_true]
  obtain ⟨x, hx, hxs⟩ := List.mem_map.mp h
  exact ⟨x, hx, by simp [hxs]⟩

theorem applyStep_not_mem (prev : List MsgData) (d : MsgData)
    (h : d.step ∉ prev.map (fun m => m.step)) :
    applyStep prev d = prev ++ [d] := by
  unfold applyStep
  rw [if_neg]
  rw [List.any_eq_true]
  rintro ⟨x, hx, hxs⟩
  exact h (List.mem_map.mpr ⟨x, hx, by simpa using hxs⟩)

theorem onMessage_mcp (s : HookState) (d : MsgData) (h : d.type = some "mcp_step") :
    onMessage s d = { s with streamingLogs := applyStep s.streamingLogs d } := by
  simp [onMessage, h]

theorem firstOccurrences_congr (l : List (Option Nat)) :
    ∀ s1 s2 : List (Option Nat), (∀ a, a ∈ s1 ↔ a ∈ s2) →
    firstOccurrences s1 l = firstOccurrences s2 l := by
  induction l with
  | nil => intro s1 s2 _; rfl
  | cons x xs ih =>
    intro s1 s2 h
    unfold firstOccurrences
    by_cases hx : x ∈ s1
    · rw [if_pos hx, if_pos ((h x).mp hx)]
      exact ih s1 s2 h
    · rw [if_neg hx, if_neg (fun hc => hx ((h x).mpr hc))]
      congr 1
      refine ih _ _ ?_
      intro a
      simp only [List.mem_cons]
      exact or_congr Iff.rfl (h a)

theorem mem_firstOccurrences (l : List (Option Nat)) :
    ∀ (seen : List (Option Nat)) (a : Option Nat),
    a ∈ firstOccurrences seen l ↔ a ∈ l ∧ a ∉ seen := by
  induction l with
  | nil => intro seen a; simp [firstOccurrences]
  | cons x xs ih =>
    intro seen a
    unfold firstOccurrences
    by_cases hx : x ∈ seen
    · rw [if_pos hx, ih]
      constructor
      · rintro ⟨ha, hns⟩; exact ⟨List.mem_cons_of_mem _ ha, hns⟩
      · rintro ⟨ha, hns⟩
        rcases List.mem_cons.mp ha with rfl | ha'
        · exact absurd hx hns
        · exact ⟨ha', hns⟩
    · rw [if_neg hx]
      constructor
      · intro h
        rcases List.mem_cons.mp h with rfl | h'
        · exact ⟨List.mem_cons_self _ _, hx⟩
        · obtain ⟨ha, hns⟩ := (ih (x :: seen) a).mp h'
          exact ⟨List.mem_cons_of_mem _ ha,
            fun hc => hns (List.mem_cons_of_mem _ hc)⟩
      · rintro ⟨ha, hns⟩
        rcases List.mem_cons.mp ha with rfl | ha'
        · exact List.mem_cons_self _ _
        · by_cases hax : a = x
          · subst hax; exact List.mem_cons_self _ _
          · refine List.mem_cons_of_mem _ ((ih (x :: seen) a).mpr ⟨ha', ?_⟩)
            intro hc
            rcases List.mem_cons.mp hc with h1 | h2
            · exact hax h1
            · exact hns h2

theorem firstOccurrences_cons_mem (seen : List (Option Nat)) (x : Option Nat)
    (xs : List (Option Nat)) (h : x ∈ seen) :
    firstOccurrences seen (x :: xs) = firstOccurrences seen xs := by
  conv_lhs => unfold firstOccurrences
  rw [if_pos h]

theorem firstOccurrences_cons_not_mem (seen : List (Option Nat)) (x : Option Nat)
    (xs : List (Option Nat)) (h : x ∉ seen) :
    firstOccurrences seen (x :: xs) = x :: firstOccurrences (x :: seen) xs := by
  conv_lhs => unfold firstOccurrences
  rw [if_neg h]

theorem nodup_firstOccurrences (l : List (Option Nat)) :
    ∀ seen : List (Option Nat), (firstOccurrences seen l).Nodup := by
  induction l with
  | nil => intro seen; simp [firstOccurrences]
  | cons x xs ih =>
    intro seen
    unfold firstOccurrences
    by_cases hx : x ∈ seen
    · rw [if_pos hx]; exact ih seen
    · rw [if_neg hx]
      refine List.nodup_cons.mpr ⟨?_, ih (x :: seen)⟩
      intro hc
      exact ((mem_firstOccurrences xs (x :: seen) x).mp hc).2 (List.mem_cons_self x seen)

theorem runFrames_timeline (frames : List MsgData) :
    ∀ s : HookState, (∀ d ∈ frames, d.type = some "mcp_step") →
    timelineIds (runFrames s frames) =
      timelineIds s ++ firstOccurrences (timelineIds s) (frames.map (fun m => m.step)) := by
  induction frames with
  | nil => intro s _; simp [runFrames, firstOccurrences]
  | cons d fs ih =>
    intro s hall
    have hd : d.type = some "mcp_step" := hall d (List.mem_cons_self d fs)
    have hfs : ∀ m ∈ fs, m.type = some "mcp_step" :=
      fun m hm => hall m (List.mem_cons_of_mem d hm)
    have hstep : runFrames s (d :: fs) = runFrames (onMessage s d) fs := rfl
    rw [hstep, ih (onMessage s d) hfs, onMessage_mcp s d hd]
    by_cases hmem : d.step ∈ timelineIds s
    · have happ : applyStep s.streamingLogs d = s.streamingLogs :=
        applyStep_mem _ _ hmem
      have hids : timelineIds { s with streamingLogs := applyStep s.streamingLogs d }
          = timelineIds s := by
        simp [timelineIds, happ]
      rw [hids, List.map_cons, firstOccurrences_cons_mem _ _ _ hmem]
    · have happ : applyStep s.streamingLogs d = s.streamingLogs ++ [d] :=
        applyStep_not_mem _ _ hmem
      have hids : timelineIds { s with streamingLogs := applyStep s.streamingLogs d }
          = timelineIds s ++ [d.step] := by
        simp [timelineIds, happ]
      rw [hids, List.map_cons, firstOccurrences_cons_not_mem _ _ _ hmem,
        List.append_assoc, List.singleton_append]
      congr 2
      refine firstOccurrences_congr _ _ _ ?_
      intro a
      simp only [List.mem_append, List.mem_cons, List.not_mem_nil, or_false]
      exact or_comm

theorem count_eq_one_of_nodup_mem {α : Type} [BEq α] [LawfulBEq α]
    {l : List α} {a : α} (hnd : l.Nodup) (h : a ∈ l) : l.count a = 1 := by
  induction l with
  | nil => cases h
  | cons x xs ih =>
    rcases List.mem_cons.mp h with rfl | h'
    · rw [List.count_cons_self, List.count_eq_zero.mpr (List.nodup_cons.mp hnd).1]
    · have hne : a ≠ x := by
        rintro rfl
        exact (List.nodup_cons.mp hnd).1 h'
      rw [List.count_cons_of_ne hne, ih (List.nodup_cons.mp hnd).2 h']

/-! ### Concrete frames used by witnesses and counterexamples -/

/-- A concrete `mcp_step` frame. -/
def mkStep (i : Nat) (ev : String) : MsgData :=
  { type := some "mcp_step", step := some i, agent := some "Watchman",
    event := some ev, isError := false, severity := none,
    unit_id := some "ENGINE-001", cycle := none, rul := none,
    vibration := none, unit_status := none }

/-- A concrete qualifying alert frame. -/
def alertCritical : MsgData :=
  { type := some "alert", step := none, agent := none,
    event := some "RUL collapse", isError := true,
    severity := some "critical", unit_id := some "ENGINE-001",
    cycle := some 210, rul := some 120, vibration := some 9,
    unit_status := some "CRITICAL" }

/-- A concrete untyped telemetry tick. -/
def telemetryTick (c : Nat) (st : String) : MsgData :=
  { type := none, step := none, agent := none, event := none,
    isError := false, severity := none, unit_id := some "ENGINE-001",
    cycle := some c, rul := some 118, vibration := some 2,
    unit_status := some st }

/-- A concrete `system_resumed` frame. -/
def resumedMsg : MsgData :=
  { type := some "system_resumed", step := none, agent := none, event := none,
    isError := false, severity := none, unit_id := none, cycle := none,
    rul := none, vibration := none, unit_status := none }

/-- A concrete frame with an unrecognized type discriminator. -/
def unknownTypeMsg : MsgData :=
  { type := some "heartbeat", step := none, agent := none, event := none,
    isError := false, severity := none, unit_id := none, cycle := none,
    rul := none, vibration := none, unit_status := none }

/-! ### Claim theorems -/

/-- C1: for every sequence of inbound `mcp_step` frames, possibly with
repeated step identifiers, the accumulated timeline contains each step
identifier exactly once, in the order of each identifier's first arrival,
and applying a step whose identifier is already present leaves the
timeline unchanged. -/
theorem timeline_exactly_once_first_arrival
    (frames : List MsgData) (hall : ∀ d ∈ frames, d.type = some "mcp_step")
    (s : HookState) (hs : s.streamingLogs = [])
    (d : MsgData) (hdm : d.step ∈ timelineIds (runFrames s frames)) :
    timelineIds (runFrames s frames) = firstOccurrences [] (frames.map (fun m => m.step))
    ∧ (timelineIds (runFrames s frames)).Nodup
    ∧ (∀ i, i ∈ timelineIds (runFrames s frames) ↔ i ∈ frames.map (fun m => m.step))
    ∧ (∀ i ∈ frames.map (fun m => m.step), (timelineIds (runFrames s frames)).count i = 1)
    ∧ applyStep (runFrames s frames).streamingLogs d = (runFrames s frames).streamingLogs := by
  have hids : timelineIds s = [] := by simp [timelineIds, hs]
  have hmain := runFrames_timeline frames s hall
  rw [hids] at hmain
  simp only [List.nil_append] at hmain
  have hnd : (timelineIds (runFrames s frames)).Nodup := by
    rw [hmain]; exact nodup_firstOccurrences _ _
  refine ⟨hmain, hnd, ?_, ?_, ?_⟩
  · intro i
    rw [hmain, mem_firstOccurrences]
    simp
  · intro i hi
    have hmem : i ∈ timelineIds (runFrames s frames) := by
      rw [hmain, mem_firstOccurrences]
      exact ⟨hi, by simp⟩
    exact count_eq_one_of_nodup_mem hnd hmem
  · exact applyStep_mem _ _ hdm

/-- Witness for C1 at the concrete redelivered sequence 1, 2, 1, 3, 2. -/
theorem timeline_exactly_once_first_arrival_witness :
    (∀ d ∈ [mkStep 1 "a", mkStep 2 "b", mkStep 1 "a", mkStep 3 "c", mkStep 2 "b"],
      d.type = some "mcp_step")
    ∧ initState.streamingLogs = []
    ∧ (mkStep 2 "b").step ∈ timelineIds (runFrames initState
        [mkStep 1 "a", mkStep 2 "b", mkStep 1 "a", mkStep 3 "c", mkStep 2 "b"])
    ∧ (timelineIds (runFrames initState
        [mkStep 1 "a", mkStep 2 "b", mkStep 1 "a", mkStep 3 "c", mkStep 2 "b"])
      = firstOccurrences []
          ([mkStep 1 "a", mkStep 2 "b", mkStep 1 "a", mkStep 3 "c", mkStep 2 "b"].map
            (fun m => m.step))
    ∧ (timelineIds (runFrames initState
        [mkStep 1 "a", mkStep 2 "b", mkStep 1 "a", mkStep 3 "c", mkStep 2 "b"])).Nodup
    ∧ (∀ i, i ∈ timelineIds (runFrames initState
        [mkStep 1 "a", mkStep 2 "b", mkStep 1 "a", mkStep 3 "c", mkStep 2 "b"])
        ↔ i ∈ [mkStep 1 "a", mkStep 2 "b", mkStep 1 "a", mkStep 3 "c", mkStep 2 "b"].map
            (fun m => m.step))
    ∧ (∀ i ∈ [mkStep 1 "a", mkStep 2 "b", mkStep 1 "a", mkStep 3 "c", mkStep 2 "b"].map
          (fun m => m.step),
        (timelineIds (runFrames initState
          [mkStep 1 "a", mkStep 2 "b", mkStep 1 "a", mkStep 3 "c", mkStep 2 "b"])).count i = 1)
    ∧ applyStep (runFrames initState
        [mkStep 1 "a", mkStep 2 "b", mkStep 1 "a", mkStep 3 "c", mkStep 2 "b"]).streamingLogs
        (mkStep 2 "b")
      = (runFrames initState
        [mkStep 1 "a", mkStep 2 "b", mkStep 1 "a", mkStep 3 "c", mkStep 2 "b"]).streamingLogs) :=
  ⟨by decide, rfl, by decide,
    timeline_exactly_once_first_arrival
      [mkStep 1 "a", mkStep 2 "b", mkStep 1 "a", mkStep 3 "c", mkStep 2 "b"]
      (by decide) initState rfl (mkStep 2 "b") (by decide)⟩

theorem delaySeq_range (n : Nat) : ∀ s : HookState,
    delaySeq s n = (List.range' s.tries n).map (fun i => min (2000 * 2 ^ i) 30000) := by
  induction n with
  | zero => intro s; rfl
  | succ k ih =>
    intro s
    show onCloseDelay s :: delaySeq (onCloseFn s) k = _
    rw [ih (onCloseFn s), List.range'_succ]
    rfl

theorem iterClose_tries (n : Nat) : ∀ s : HookState,
    (iterClose s n).tries = s.tries + n := by
  induction n with
  | zero => intro s; rfl
  | succ k ih =>
    intro s
    show (iterClose (onCloseFn s) k).tries = s.tries + (k + 1)
    rw [ih (onCloseFn s)]
    show s.tries + 1 + k = s.tries + (k + 1)
    omega

/-- C2: starting from a fresh connection (retry counter 0), the delay
before the n-th consecutive reconnect attempt is
min(2000 * 2^(n-1), 30000) ms — the sequence 2000, 4000, 8000, 16000,
30000, 30000, …; no scheduled delay exceeds 30000 ms; the retry counter is
incremented after computing each delay (after n closes it reads n) and is
reset to 0 on a successful open. -/
theorem reconnect_backoff_delays (s : HookState) (h0 : s.tries = 0) (n : Nat) :
    delaySeq s n = (List.range n).map (fun i => min (2000 * 2 ^ i) 30000)
    ∧ (∀ d ∈ delaySeq s n, d ≤ 30000)
    ∧ (iterClose s n).tries = n
    ∧ (∀ s' : HookState, (onOpenFn s').tries = 0 ∧ (onOpenFn s').connected = true) := by
  have hseq : delaySeq s n = (List.range n).map (fun i => min (2000 * 2 ^ i) 30000) := by
    rw [delaySeq_range n s, h0, List.range_eq_range']
  refine ⟨hseq, ?_, ?_, fun s' => ⟨rfl, rfl⟩⟩
  · intro d hd
    rw [hseq] at hd
    obtain ⟨i, _, rfl⟩ := List.mem_map.mp hd
    exact min_le_right _ _
  · rw [iterClose_tries n s, h0, Nat.zero_add]

/-- Witness for C2 at six consecutive failures from the fresh state,
also computing the concrete sequence 2000, 4000, 8000, 16000, 30000,
30000. -/
theorem reconnect_backoff_delays_witness :
    initState.tries = 0
    ∧ (delaySeq initState 6 = (List.range 6).map (fun i => min (2000 * 2 ^ i) 30000)
      ∧ (∀ d ∈ delaySeq initState 6, d ≤ 30000)
      ∧ (iterClose initState 6).tries = 6
      ∧ (∀ s' : HookState, (onOpenFn s').tries = 0 ∧ (onOpenFn s').connected = true))
    ∧ delaySeq initState 6 = [2000, 4000, 8000, 16000, 30000, 30000] :=
  ⟨rfl, reconnect_backoff_delays initState rfl 6, by decide⟩

theorem onMessage_default (s : HookState) (d : MsgData) (h : ¬ isSpecialType d) :
    onMessage s d = { s with lastMessage := some d } := by
  unfold isSpecialType at h
  push_neg at h
  obtain ⟨h1, h2, h3, h4⟩ := h
  simp [onMessage, h1, h2, h3, h4]

theorem onMessage_alert_qualifying (s : HookState) (a : MsgData)
    (ht : a.type = some "alert")
    (hq : a.isError = true ∨ a.severity = some "critical") :
    onMessage s a = { s with lastAlert := some a, criticalEvent := some a } := by
  unfold onMessage
  rw [ht, if_neg (by decide), if_neg (by decide), if_pos rfl, if_pos hq]

theorem foldl_telemetry_preserves (ticks : List MsgData) :
    ∀ s : HookState, (∀ t ∈ ticks, ¬ isSpecialType t) →
    (ticks.foldl onMessage s).criticalEvent = s.criticalEvent
    ∧ (ticks.foldl onMessage s).streamingLogs = s.streamingLogs
    ∧ (ticks.foldl onMessage s).agentSolution = s.agentSolution
    ∧ (ticks.foldl onMessage s).lastAlert = s.lastAlert := by
  induction ticks with
  | nil => intro s _; exact ⟨rfl, rfl, rfl, rfl⟩
  | cons t ts ih =>
    intro s hall
    have ht := hall t (List.mem_cons_self t ts)
    have hts : ∀ x ∈ ts, ¬ isSpecialType x :=
      fun x hx => hall x (List.mem_cons_of_mem t hx)
    have hstep : (t :: ts).foldl onMessage s = ts.foldl onMessage (onMessage s t) := rfl
    rw [hstep, onMessage_default s t ht]
    exact ih _ hts

/-- C3: after an alert frame with severity "critical" or isError true is
processed, the halted state is entered (`criticalEvent` is the alert data
present at trigger time, hence non-null) and every subsequently processed
telemetry tick leaves the frozen snapshot unchanged, so the overlay
telemetry (`criticalEvent ?? liveTel`) keeps showing the trigger-time
values. -/
theorem critical_alert_freezes_snapshot (s : HookState) (a : MsgData)
    (ht : a.type = some "alert")
    (hq : a.isError = true ∨ a.severity = some "critical")
    (ticks : List MsgData) (hticks : ∀ t ∈ ticks, ¬ isSpecialType t) :
    (onMessage s a).criticalEvent = some a
    ∧ (ticks.foldl onMessage (onMessage s a)).criticalEvent = some a
    ∧ overlayTelemetry (ticks.foldl onMessage (onMessage s a)) = some a := by
  have h1 : (onMessage s a).criticalEvent = some a := by
    rw [onMessage_alert_qualifying s a ht hq]
  have h2 := (foldl_telemetry_preserves ticks (onMessage s a) hticks).1
  rw [h1] at h2
  refine ⟨h1, h2, ?_⟩
  unfold overlayTelemetry
  rw [h2]

/-- Witness for C3: a concrete critical alert followed by two live ticks. -/
theorem critical_alert_freezes_snapshot_witness :
    alertCritical.type = some "alert"
    ∧ (alertCritical.isError = true ∨ alertCritical.severity = some "critical")
    ∧ (∀ t ∈ [telemetryTick 211 "HEALTHY", telemetryTick 212 "HEALTHY"], ¬ isSpecialType t)
    ∧ ((onMessage initState alertCritical).criticalEvent = some alertCritical
      ∧ ([telemetryTick 211 "HEALTHY", telemetryTick 212 "HEALTHY"].foldl onMessage
          (onMessage initState alertCritical)).criticalEvent = some alertCritical
      ∧ overlayTelemetry ([telemetryTick 211 "HEALTHY", telemetryTick 212 "HEALTHY"].foldl
          onMessage (onMessage initState alertCritical)) = some alertCritical) :=
  ⟨rfl, by decide, by decide,
    critical_alert_freezes_snapshot initState alertCritical rfl (by decide)
      [telemetryTick 211 "HEALTHY", telemetryTick 212 "HEALTHY"] (by decide)⟩

theorem onMessage_resumed (s : HookState) (d : MsgData)
    (ht : d.type = some "system_resumed") :
    onMessage s d = { s with lastMessage := none, criticalEvent := none,
                             streamingLogs := [], agentSolution := none } := by
  unfold onMessage
  rw [ht, if_neg (by decide), if_neg (by decide), if_neg (by decide), if_pos rfl]

/-- C4 counterexample: processing a `system_resumed` frame while the App
still holds an orchestration snapshot whose status is "WARNING" leaves the
derived status at "WARNING", not "IDLE", because the derivation falls back
to `data?.status` before "IDLE". -/
theorem system_resumed_status_not_idle_cx :
    derivedStatus (onMessage initState resumedMsg).lastMessage
      (some { status := some "WARNING" }) = "WARNING"
    ∧ ("WARNING" : String) ≠ "IDLE" := by
  refine ⟨?_, by decide⟩
  rw [onMessage_resumed initState resumedMsg rfl]
  rfl

/-- C4 (amended): after a `system_resumed` frame is processed, halted is
false (`criticalEvent` is null), the frozen snapshot is null, the timeline
is empty, the held solution is null, and the live tick is null; the
derived status falls back to the orchestration snapshot's status when one
is still held, and to IDLE when none is, until the next live tick
arrives. -/
theorem system_resumed_full_reset (s : HookState) (d : MsgData)
    (ht : d.type = some "system_resumed") (orch : Option OrchSnapshot) :
    (onMessage s d).criticalEvent = none
    ∧ (onMessage s d).lastMessage = none
    ∧ (onMessage s d).streamingLogs = []
    ∧ (onMessage s d).agentSolution = none
    ∧ derivedStatus (onMessage s d).lastMessage orch =
        (orch.bind (fun o => o.status)).getD "IDLE"
    ∧ derivedStatus (onMessage s d).lastMessage none = "IDLE" := by
  rw [onMessage_resumed s d ht]
  refine ⟨rfl, rfl, rfl, rfl, ?_, rfl⟩
  unfold derivedStatus
  cases horch : orch.bind (fun o => o.status) <;> rfl

/-- Witness for C4 (amended) at a halted state with a held orchestration
snapshot of status "WARNING". -/
theorem system_resumed_full_reset_witness :
    resumedMsg.type = some "system_resumed"
    ∧ ((onMessage (onMessage initState alertCritical) resumedMsg).criticalEvent = none
      ∧ (onMessage (onMessage initState alertCritical) resumedMsg).lastMessage = none
      ∧ (onMessage (onMessage initState alertCritical) resumedMsg).streamingLogs = []
      ∧ (onMessage (onMessage initState alertCritical) resumedMsg).agentSolution = none
      ∧ derivedStatus (onMessage (onMessage initState alertCritical) resumedMsg).lastMessage
          (some { status := some "WARNING" }) =
          ((some { status := some "WARNING" } : Option OrchSnapshot).bind
            (fun o => o.status)).getD "IDLE"
      ∧ derivedStatus (onMessage (onMessage initState alertCritical) resumedMsg).lastMessage
          none = "IDLE") :=
  ⟨rfl, system_resumed_full_reset (onMessage initState alertCritical) resumedMsg rfl
    (some { status := some "WARNING" })⟩

/-- C10: processing a `system_resumed` frame leaves the last-alert record
unchanged (and the connection flag and retry counter): of the handler's
state, exactly the live tick, the critical/halted event, the timeline and
the solution are cleared. -/
theorem system_resumed_preserves_lastAlert (s : HookState) (d : MsgData)
    (ht : d.type = some "system_resumed") :
    onMessage s d =
      { lastMessage := none, lastAlert := s.lastAlert, connected := s.connected,
        criticalEvent := none, streamingLogs := [], agentSolution := none,
        tries := s.tries } := by
  rw [onMessage_resumed s d ht]

/-- Witness for C10 at a state holding a concrete alert record. -/
theorem system_resumed_preserves_lastAlert_witness :
    resumedMsg.type = some "system_resumed"
    ∧ onMessage { initState with lastAlert := some alertCritical } resumedMsg =
      { lastMessage := none, lastAlert := some alertCritical, connected := false,
        criticalEvent := none, streamingLogs := [], agentSolution := none,
        tries := 0 } :=
  ⟨rfl, system_resumed_preserves_lastAlert
    { initState with lastAlert := some alertCritical } resumedMsg rfl⟩

/-- C5 counterexample: a well-formed frame with the unrecognized type
"heartbeat" is not dropped: processing it changes consumer-visible state,
storing the frame as the live tick. -/
theorem unknown_type_not_dropped_cx :
    onMessage initState unknownTypeMsg ≠ initState
    ∧ (onMessage initState unknownTypeMsg).lastMessage = some unknownTypeMsg
    ∧ initState.lastMessage = none := by
  refine ⟨by decide, by decide, rfl⟩

/-- C5 (amended): every well-formed frame whose type discriminator is
missing or is none of "mcp_step", "solution", "alert", "system_resumed"
is treated as a telemetry tick: processing it replaces the live tick with
the frame, leaves all other consumer-visible state (alert record,
critical/halted state, timeline, solution) unchanged, and raises no
error. -/
theorem unknown_type_becomes_live_tick (s : HookState) (d : MsgData)
    (h : ¬ isSpecialType d) :
    onMessage s d = { s with lastMessage := some d } :=
  onMessage_default s d h

/-- Witness for C5 (amended) at the concrete "heartbeat" frame. -/
theorem unknown_type_becomes_live_tick_witness :
    ¬ isSpecialType unknownTypeMsg
    ∧ onMessage initState unknownTypeMsg =
        { initState with lastMessage := some unknownTypeMsg } :=
  ⟨by decide, unknown_type_becomes_live_tick initState unknownTypeMsg (by decide)⟩

/-- C6: an inbound frame that fails to parse as JSON is silently dropped:
the hook state is unchanged — no field changes, no error propagates, and
the connection flag (and hence the OPEN connection) is untouched. -/
theorem malformed_frame_silent_drop (s : HookState) (raw : String) :
    onFrame s (Frame.malformed raw) = s
    ∧ (onFrame s (Frame.malformed raw)).connected = s.connected :=
  ⟨rfl, rfl⟩

/-- C7 counterexample: with two accumulated steps of a previous run held,
an incoming step update representing fewer total accumulated steps (the
first step of a new run) does not clear the timeline: a fresh identifier
is appended after the previous run's tail, and a reused identifier is
swallowed by the dedup guard — neither yields the cleared-then-applied
singleton timeline the claim requires. -/
theorem run_boundary_not_cleared_cx :
    applyStep [mkStep 1 "a", mkStep 2 "b"] (mkStep 3 "x")
      = [mkStep 1 "a", mkStep 2 "b", mkStep 3 "x"]
    ∧ applyStep [mkStep 1 "a", mkStep 2 "b"] (mkStep 3 "x") ≠ [mkStep 3 "x"]
    ∧ applyStep [mkStep 1 "a", mkStep 2 "b"] (mkStep 1 "restart")
      = [mkStep 1 "a", mkStep 2 "b"]
    ∧ applyStep [mkStep 1 "a", mkStep 2 "b"] (mkStep 1 "restart")
      ≠ [mkStep 1 "restart"] := by
  refine ⟨by decide, by decide, by decide, by decide⟩

/-- C7 (amended): the length comparison on each update detects run
boundaries only in the rendering component's animation state —
`logsLengthEffect` resets `finishedSteps` exactly when the incoming logs
list is shorter than the previously held length (or it was already empty)
and records the new length — while the timeline reducer itself never
clears: every application leaves the held timeline as a prefix of the
result, and the timeline is emptied only by an explicit reset. -/
theorem timeline_not_cleared_by_length :
    (∀ (l : List MsgData) (d : MsgData), ∃ tail, applyStep l d = l ++ tail)
    ∧ (∀ (v : LogViewState) (len : Nat),
        ((logsLengthEffect v len).finishedSteps = []
          ↔ (len < v.prevLogsLen ∨ v.finishedSteps = []))
        ∧ (logsLengthEffect v len).prevLogsLen = len)
    ∧ (∀ s : HookState, (resetStreamingLogs s).streamingLogs = []) := by
  refine ⟨?_, ?_, fun s => rfl⟩
  · intro l d
    unfold applyStep
    by_cases h : l.any (fun x => x.step == d.step) = true
    · exact ⟨[], by rw [if_pos h, List.append_nil]⟩
    · exact ⟨[d], by rw [if_neg h]⟩
  · intro v len
    unfold logsLengthEffect
    by_cases h : len < v.prevLogsLen
    · simp [h]
    · simp [h]

/-- C8 (code evaluation at the failing input): tearing down a session
whose socket is OPEN (no reconnect timer pending) does not stop
reconnection.  The cleanup clears the (absent) timer and closes the
socket; the close event is delivered afterwards to the still-attached
`onclose` handler, which schedules a reconnect timer; that timer fires
after teardown and `connect()` runs again — one connection attempt after
teardown, where the claim requires zero.  (When a timer is already
pending and the socket is dead, cleanup does cancel it — last
conjunct.) -/
theorem teardown_orphan_reconnect :
    (runLoop
      { timerPending := false, socketLive := true, closeEventQueued := false,
        tornDown := false, attemptsAfterTeardown := 0 }
      [LoopEvent.cleanup, LoopEvent.closeDelivered, LoopEvent.timerFired]).attemptsAfterTeardown
      = 1
    ∧ (runLoop
        { timerPending := false, socketLive := true, closeEventQueued := false,
          tornDown := false, attemptsAfterTeardown := 0 }
        [LoopEvent.cleanup, LoopEvent.closeDelivered, LoopEvent.timerFired]).tornDown = true
    ∧ (runLoop
        { timerPending := true, socketLive := false, closeEventQueued := false,
          tornDown := false, attemptsAfterTeardown := 0 }
        [LoopEvent.cleanup, LoopEvent.timerFired]).attemptsAfterTeardown = 0 := by
  refine ⟨rfl, rfl, rfl⟩

/-- C9: for every outcome of the resume POST (2xx success, non-2xx
response, or network failure), the accept handler still clears the local
incident state — the orchestration snapshot, the critical/halted event,
the held solution and the timeline are all reset — and a failure only
produces a console log (the log list is empty exactly when the POST
succeeded); no error propagates to the state transition. -/
theorem resume_clears_state_all_outcomes (o : FetchOutcome) (a : AppState) :
    (handleAccept o a).1.data = none
    ∧ (handleAccept o a).1.hook.criticalEvent = none
    ∧ (handleAccept o a).1.hook.agentSolution = none
    ∧ (handleAccept o a).1.hook.streamingLogs = []
    ∧ ((handleAccept o a).2 = [] ↔ resumeSucceeded o) := by
  refine ⟨rfl, rfl, rfl, rfl, ?_⟩
  unfold handleAccept resumeSucceeded
  cases o with
  | success => simp [fetchResult, resOk]
  | httpError st =>
    by_cases h : resOk st = true
    · simp [fetchResult, h]
    · simp [fetchResult, h]
  | networkError m => simp [fetchResult]
